import Mathlib

/-!
Verification of the ArdunixNix6 nixie-clock firmware
(`ardunixFade9_6_digit.ino`): a shallow embedding of the display
rendering engine (`outputDisplay`) and the high-voltage PWM
regulation and calibration engine (`setPWMOnTime`, `setPWMTopTime`,
`checkHVVoltage`, pass 2 of `calibrateHVG`), together with proofs of
the specified properties.

Machine integers: the firmware stores PWM times in C `int` variables;
all reachable values fit comfortably in 16-bit signed range, so they
are modelled as `Int`.  Digit values and fade states live in `byte`
variables; they are modelled as `Nat` with explicit wrap-around where
the code can underflow (`currNumberArray[i] - 1`).
-/

namespace Ardunix

/-! ### Constants from the source (`#define` block) -/

def DIGIT_DISPLAY_COUNT : Nat := 1000

/-- Definition `DIGIT_ANTI_GHOST` is `DIGIT_DISPLAY_COUNT + 10`: the inner
timer loop runs for steps `0 .. DIGIT_ANTI_GHOST - 1`. -/
def DIGIT_ANTI_GHOST : Nat := DIGIT_DISPLAY_COUNT + 10

def DIGIT_DISPLAY_ON : Int := 0

def DIGIT_DISPLAY_OFF : Nat := 999

def DIGIT_DISPLAY_NEVER : Int := -1

def DIGIT_DISPLAY_MIN_DIM : Nat := 100

/-- Definition `DIM_VALUE` is `DIGIT_DISPLAY_COUNT/5` in the source. -/
def DIM_VALUE : Nat := DIGIT_DISPLAY_COUNT / 5

def BLINK_COUNT_MAX : Nat := 25

def PWM_TOP_DEFAULT : Int := 1000

def PWM_TOP_MIN : Int := 300

def PWM_TOP_MAX : Int := 10000

def PWM_PULSE_DEFAULT : Int := 200

def PWM_PULSE_MIN : Int := 50

def PWM_PULSE_MAX : Int := 500

def PWM_OFF_MIN : Int := 50

def SCROLL_STEPS_DEFAULT : Nat := 4

def FADE_STEPS_DEFAULT : Nat := 50

def FADE_STEPS_MAX : Nat := 200

def FADE_STEPS_MIN : Nat := 20

/-! ### HV generator: `setPWMTopTime`, `setPWMOnTime`, `checkHVVoltage`

The C functions mutate the globals `pwmTop` / `pwmOn` (and mirror them
into the timer registers `ICR1` / `OCR1A`, which hold the same value).
They are embedded as pure functions from the relevant globals to the
new value of the mutated global. -/

/-- Embedding of `setPWMTopTime` (lines 2903-2918): clamp the requested
top time to `[PWM_TOP_MIN, PWM_TOP_MAX]`, then raise it to at least
`pwmOn + PWM_OFF_MIN`; the result is the new `pwmTop`. -/
def setPWMTopTime (pwmOn newTopTime : Int) : Int :=
  let t1 := if newTopTime < PWM_TOP_MIN then PWM_TOP_MIN else newTopTime
  let t2 := if t1 > PWM_TOP_MAX then PWM_TOP_MAX else t1
  if t2 < pwmOn + PWM_OFF_MIN then pwmOn + PWM_OFF_MIN else t2

/-- Embedding of `setPWMOnTime` (lines 2927-2942): clamp the requested
on time to `[PWM_PULSE_MIN, PWM_PULSE_MAX]`, then lower it to at most
`pwmTop - PWM_OFF_MIN`; the result is the new `pwmOn`. -/
def setPWMOnTime (pwmTop newOnTime : Int) : Int :=
  let t1 := if newOnTime < PWM_PULSE_MIN then PWM_PULSE_MIN else newOnTime
  let t2 := if t1 > PWM_PULSE_MAX then PWM_PULSE_MAX else t1
  if t2 > pwmTop - PWM_OFF_MIN then pwmTop - PWM_OFF_MIN else t2

/-- Embedding of `incPWMOnTime` (line 2944). -/
def incPWMOnTime (pwmTop pwmOn : Int) : Int :=
  setPWMOnTime pwmTop (pwmOn + 1)

/-- Embedding of `checkHVVoltage` (lines 2732-2738): one regulator
correction step, parameterised by the current smoothed sensor reading
and the precomputed ADC threshold; returns the new `pwmTop`. -/
def checkHVVoltage (smoothedReading rawHVADCThreshold pwmOn pwmTop : Int) : Int :=
  if smoothedReading > rawHVADCThreshold then
    setPWMTopTime pwmOn (pwmTop + 1)
  else
    setPWMTopTime pwmOn (pwmTop - 1)

/-- Definition of the standard clamp used by the spec,
`clamp x lo hi = max lo (min x hi)`. -/
def clamp (x lo hi : Int) : Int := max lo (min x hi)

/-! ### Calibration pass 2 (`calibrateHVG`, lines 2841-2860)

The second calibration pass iterates `i` from 0 to 767; on each
iteration where the smoothed reading is below the threshold AND
`i % 8 == 0` it calls `incPWMOnTime`.  Nothing inside the pass writes
`pwmTop`, so it is a fold over the iteration counter carrying `pwmOn`;
the embedding additionally counts the `incPWMOnTime` calls.  The ADC
readings are abstracted as a Boolean function `below` of the iteration
index (true = smoothed reading below threshold). -/

def calibPass2Step (below : Nat → Bool) (pwmTop : Int) (st : Int × Nat) (i : Nat) : Int × Nat :=
  if below i then
    if i % 8 = 0 then (incPWMOnTime pwmTop st.1, st.2 + 1) else st
  else st

/-- Embedding of pass 2 of `calibrateHVG`: start from
`setPWMOnTime(PWM_PULSE_MIN)` and run the 768-iteration loop; returns
the final `pwmOn` together with the number of `incPWMOnTime` calls. -/
def calibPass2 (below : Nat → Bool) (pwmTop : Int) : Int × Nat :=
  (List.range 768).foldl (calibPass2Step below pwmTop) (setPWMOnTime pwmTop PWM_PULSE_MIN, 0)

/-! ### Digit renderer: per-slot model of `outputDisplay` (lines 1946-2083)

`outputDisplay` loops over the six digit slots; for each slot it
resolves the effective display mode, computes the on/off step
thresholds, runs the fade/scroll transition state machine (which may
write the slot's `fadeState[i]`, `currNumberArray[i]` and the local
`digitSwitchTime`), and then busy-counts the inner timer loop firing
events at the computed steps.  The per-slot body is embedded as a pure
function; writes to `fadeState[i]` and to the local `digitSwitchTime`
are recorded as lists, in program order, so that both the sequence of
assigned values and the absence of any assignment (the local keeps the
value left by the previous slot) are captured faithfully. -/

/-- Display modes, from the `#define` block (values 0-6). -/
inductive DisplayMode
  | blankedMode
  | dimmedMode
  | fadeMode
  | normalMode
  | blinkMode
  | scrollMode
  | brightMode
deriving DecidableEq, Repr

/-- Global render parameters read by `outputDisplay`. -/
structure RenderEnv where
  blanked : Bool
  blinkState : Bool
  scrollback : Bool
  fadeSteps : Nat
  scrollSteps : Nat
  digitOffCount : Nat
deriving DecidableEq, Repr

/-- Per-slot mutable state: `currNumberArray[i]` and `fadeState[i]`
(both `byte` in the source). -/
structure SlotState where
  curr : Nat
  fadeState : Nat
deriving DecidableEq, Repr

/-- Result of one slot iteration of `outputDisplay`: the new slot
state, the computed `digitOnTime` / `digitOffTime`, and the values
assigned (in order) to `fadeState[i]` and to the local
`digitSwitchTime` during this iteration. -/
structure SlotResult where
  state : SlotState
  onTime : Int
  offTime : Int
  fadeWrites : List Nat
  switchWrites : List Nat
deriving DecidableEq, Repr

/-- Embedding of the global `fadeStep` recomputation
(`fadeStep = digitOffCount / fadeSteps`, line 1557): C `int` division
of non-negative operands, truncated, stored in a `float` that
represents the quotient exactly. -/
def fadeStepOf (digitOffCount fadeSteps : Nat) : Nat :=
  digitOffCount / fadeSteps

/-- Definition of the decrement `currNumberArray[i] - 1` on a C `byte`
(wraps at 0). -/
def byteDec (n : Nat) : Nat := (n + 255) % 256

/-- Mode after the global blanking override (lines 1959-1963). -/
def preMode (env : RenderEnv) (mode : DisplayMode) : DisplayMode :=
  if env.blanked then .blankedMode else mode

/-- Effective transition mode after the scrollback override (lines
2010-2015): going to 0 with scrollback enabled forces Scroll. -/
def effectiveMode (env : RenderEnv) (mode : DisplayMode) (target curr : Nat) : DisplayMode :=
  if target ≠ curr ∧ target = 0 ∧ env.scrollback = true then .scrollMode
  else preMode env mode

/-- The `(digitOnTime, digitOffTime)` pair computed by the mode switch
(lines 1965-2008); the switch runs on the pre-override mode. -/
def onOffTimes (env : RenderEnv) (m : DisplayMode) : Int × Int :=
  match m with
  | .blankedMode => (DIGIT_DISPLAY_NEVER, DIGIT_DISPLAY_ON)
  | .dimmedMode => (DIGIT_DISPLAY_ON, (DIM_VALUE : Int))
  | .brightMode => (DIGIT_DISPLAY_ON, (DIGIT_DISPLAY_OFF : Int))
  | .fadeMode => (DIGIT_DISPLAY_ON, (env.digitOffCount : Int))
  | .normalMode => (DIGIT_DISPLAY_ON, (env.digitOffCount : Int))
  | .blinkMode =>
    if env.blinkState then (DIGIT_DISPLAY_ON, (env.digitOffCount : Int))
    else (DIGIT_DISPLAY_NEVER, DIGIT_DISPLAY_ON)
  | .scrollMode => (DIGIT_DISPLAY_ON, (env.digitOffCount : Int))

/-- The fade/scroll transition block (lines 2021-2060), acting on the
effective mode `m`: returns the new slot state and the write lists for
`fadeState[i]` and `digitSwitchTime`. -/
def slotTransition (env : RenderEnv) (m : DisplayMode) (target : Nat) (s : SlotState) :
    SlotState × List Nat × List Nat :=
  if m = .scrollMode then
    let sw := [DIGIT_DISPLAY_OFF]
    if target ≠ s.curr then
      let startPair :=
        if s.fadeState = 0 then (env.scrollSteps, [env.scrollSteps])
        else (s.fadeState, ([] : List Nat))
      let fs1 := startPair.1
      let fw1 := startPair.2
      if fs1 = 1 then (⟨byteDec s.curr, 0⟩, fw1 ++ [0], sw)
      else if fs1 > 1 then (⟨s.curr, fs1 - 1⟩, fw1 ++ [fs1 - 1], sw)
      else (⟨s.curr, fs1⟩, fw1, sw)
    else (s, [], sw)
  else if m = .fadeMode then
    let fStep := fadeStepOf env.digitOffCount env.fadeSteps
    let startTriple :=
      if target ≠ s.curr ∧ s.fadeState = 0 then
        (env.fadeSteps, [env.fadeSteps], [env.fadeSteps * fStep])
      else (s.fadeState, ([] : List Nat), ([] : List Nat))
    let fs1 := startTriple.1
    let fw1 := startTriple.2.1
    let sw1 := startTriple.2.2
    if fs1 = 1 then (⟨target, 0⟩, fw1 ++ [0], sw1 ++ [DIGIT_DISPLAY_COUNT])
    else if fs1 > 1 then
      (⟨s.curr, fs1 - 1⟩, fw1 ++ [fs1 - 1], sw1 ++ [(fs1 - 1) * fStep])
    else (s, fw1, sw1)
  else
    (⟨target, s.fadeState⟩, [], [DIGIT_DISPLAY_COUNT])

/-- One slot iteration of `outputDisplay`: mode resolution, on/off
computation, transition block. -/
def slotImpression (env : RenderEnv) (mode : DisplayMode) (target : Nat) (s : SlotState) :
    SlotResult :=
  let times := onOffTimes env (preMode env mode)
  let tr := slotTransition env (effectiveMode env mode target s.curr) target s
  ⟨tr.1, times.1, times.2, tr.2.1, tr.2.2⟩

/-- The `digitSwitchTime` value compared against the timer in the inner
loop: the last value written during this slot's iteration, or the
incoming value (`none` = uninitialized) if the iteration wrote none. -/
def usedSwitchTime (prev : Option Nat) (r : SlotResult) : Option Nat :=
  match r.switchWrites.getLast? with
  | some v => some v
  | none => prev

/-- Definition of `n` successive impressions of one slot (same mode and
target each time), returning the final slot state. -/
def slotIter (env : RenderEnv) (mode : DisplayMode) (target : Nat) :
    Nat → SlotState → SlotState
  | 0, s => s
  | n + 1, s => slotIter env mode target n (slotImpression env mode target s).state

/-- Definition of the write traces over `n` successive impressions of a
slot: the concatenated `fadeState[i]` writes and `digitSwitchTime`
writes, in order. -/
def slotTrace (env : RenderEnv) (mode : DisplayMode) (target : Nat) :
    Nat → SlotState → List Nat × List Nat
  | 0, _ => ([], [])
  | n + 1, s =>
    let r := slotImpression env mode target s
    let rest := slotTrace env mode target n r.state
    (r.fadeWrites ++ rest.1, r.switchWrites ++ rest.2)

/-! ### Blink counter (lines 2077-2082)

After the six per-slot iterations, `outputDisplay` increments the
shared `blinkCounter` once per call and toggles `blinkState` when the
counter reaches `BLINK_COUNT_MAX`. -/

/-- Embedding of the blink epilogue of one `outputDisplay` call, on the
state `(blinkCounter, blinkState)`. -/
def blinkStep (st : Nat × Bool) : Nat × Bool :=
  let c := st.1 + 1
  if c = BLINK_COUNT_MAX then (0, !st.2) else (c, st.2)

/-- Definition of `n` successive `outputDisplay` calls, restricted to
the blink state they touch. -/
def blinkIter : Nat → Nat × Bool → Nat × Bool
  | 0, st => st
  | n + 1, st => blinkIter n (blinkStep st)

/-! ### Claims C2, C3, C4, C7: PWM regulation and calibration -/

/-- Claim C2: after every call to `setPWMOnTime` and after every call to
`setPWMTopTime`, starting from any state satisfying the bounds
`PWM_PULSE_MIN ≤ pwmOn ≤ PWM_PULSE_MAX` and
`PWM_TOP_MIN ≤ pwmTop ≤ PWM_TOP_MAX`, the invariant
`pwmOn + PWM_OFF_MIN ≤ pwmTop` holds and `pwmTop` stays within
`[PWM_TOP_MIN, PWM_TOP_MAX]` (a `setPWMOnTime` call leaves `pwmTop`
unchanged, so its bounds are those of the starting state). -/
theorem pwm_safety_invariant (pwmOn pwmTop x : Int)
    (hOn : PWM_PULSE_MIN ≤ pwmOn ∧ pwmOn ≤ PWM_PULSE_MAX)
    (hTop : PWM_TOP_MIN ≤ pwmTop ∧ pwmTop ≤ PWM_TOP_MAX) :
    (pwmOn + PWM_OFF_MIN ≤ setPWMTopTime pwmOn x ∧
      PWM_TOP_MIN ≤ setPWMTopTime pwmOn x ∧ setPWMTopTime pwmOn x ≤ PWM_TOP_MAX) ∧
    (setPWMOnTime pwmTop x + PWM_OFF_MIN ≤ pwmTop ∧
      PWM_TOP_MIN ≤ pwmTop ∧ pwmTop ≤ PWM_TOP_MAX) := by
  simp only [setPWMTopTime, setPWMOnTime, PWM_PULSE_MIN, PWM_PULSE_MAX, PWM_TOP_MIN,
    PWM_TOP_MAX, PWM_OFF_MIN] at *
  split_ifs <;> omega

/-- Witness for C2 at `pwmOn = 200`, `pwmTop = 1000`, argument `5000`. -/
theorem pwm_safety_invariant_witness :
    ((200 : Int) + PWM_OFF_MIN ≤ setPWMTopTime 200 5000 ∧
      PWM_TOP_MIN ≤ setPWMTopTime 200 5000 ∧ setPWMTopTime 200 5000 ≤ PWM_TOP_MAX) ∧
    (setPWMOnTime 1000 5000 + PWM_OFF_MIN ≤ 1000 ∧
      PWM_TOP_MIN ≤ (1000 : Int) ∧ (1000 : Int) ≤ PWM_TOP_MAX) :=
  pwm_safety_invariant 200 1000 5000 (by decide) (by decide)

/-- Claim C3: each regulator correction step `checkHVVoltage` adds 1 to
`pwmTop` when the smoothed reading exceeds the threshold and subtracts
1 otherwise, then clamps the result to `[PWM_TOP_MIN, PWM_TOP_MAX]` and
raises it to at least `pwmOn + PWM_OFF_MIN`. -/
theorem hv_correction_step (smoothedReading rawHVADCThreshold pwmOn pwmTop : Int) :
    checkHVVoltage smoothedReading rawHVADCThreshold pwmOn pwmTop =
      max (pwmOn + PWM_OFF_MIN)
        (clamp (if smoothedReading > rawHVADCThreshold then pwmTop + 1 else pwmTop - 1)
          PWM_TOP_MIN PWM_TOP_MAX) := by
  simp only [checkHVVoltage, setPWMTopTime, clamp, PWM_TOP_MIN, PWM_TOP_MAX, PWM_OFF_MIN]
  split_ifs <;> omega

/-- Claim C4: `setPWMOnTime x` yields
`clamp x PWM_PULSE_MIN (min PWM_PULSE_MAX (pwmTop - PWM_OFF_MIN))`, for
every integer `x` and every prior state satisfying the `pwmTop` lower
bound invariant. -/
theorem pwm_on_roundtrip (pwmTop x : Int) (h : PWM_TOP_MIN ≤ pwmTop) :
    setPWMOnTime pwmTop x =
      clamp x PWM_PULSE_MIN (min PWM_PULSE_MAX (pwmTop - PWM_OFF_MIN)) := by
  simp only [setPWMOnTime, clamp, PWM_PULSE_MIN, PWM_PULSE_MAX, PWM_TOP_MIN, PWM_OFF_MIN] at *
  split_ifs <;> omega

/-- Witness for C4 at `pwmTop = 1000`, `x = 2000`. -/
theorem pwm_on_roundtrip_witness :
    PWM_TOP_MIN ≤ (1000 : Int) ∧
      setPWMOnTime 1000 2000 =
        clamp 2000 PWM_PULSE_MIN (min PWM_PULSE_MAX ((1000 : Int) - PWM_OFF_MIN)) :=
  ⟨by decide, pwm_on_roundtrip 1000 2000 (by decide)⟩

/-- Helper for C7: running `n ≤ 768` iterations of the pass-2 loop from
`pwmOn = PWM_PULSE_MIN` with every reading below threshold performs
`⌈n / 8⌉` increments, none of which hits a clamp. -/
theorem calibPass2_loop (below : Nat → Bool) (pwmTop : Int)
    (hb : ∀ i, below i = true) (ht : (196 : Int) ≤ pwmTop) :
    ∀ n, n ≤ 768 →
      (List.range n).foldl (calibPass2Step below pwmTop) (PWM_PULSE_MIN, 0) =
        (PWM_PULSE_MIN + ((n + 7) / 8 : Nat), (n + 7) / 8) := by
  intro n
  induction n with
  | zero => intro _; simp [PWM_PULSE_MIN]
  | succ n ih =>
    intro hn
    rw [List.range_succ, List.foldl_append, ih (by omega)]
    simp only [List.foldl_cons, List.foldl_nil, calibPass2Step, hb n, if_true]
    by_cases h8 : n % 8 = 0
    · have hdiv : (n + 7) / 8 ≤ 95 := by omega
      simp only [h8, if_pos rfl, incPWMOnTime, setPWMOnTime, PWM_PULSE_MIN, PWM_PULSE_MAX,
        PWM_OFF_MIN]
      split_ifs <;> simp only [Prod.mk.injEq] <;> omega
    · simp only [if_neg h8, Prod.mk.injEq, PWM_PULSE_MIN]
      omega

/-- Claim C7: calibration pass 2 starting from `pwmOn = PWM_PULSE_MIN`,
with the smoothed reading below the threshold on every one of the 768
iterations, increments `pwmOn` exactly 96 times (once on each iteration
with `i % 8 == 0`), ending at `PWM_PULSE_MIN + 96`; that value stays
below `PWM_PULSE_MAX`, so the clamp is never reached. -/
theorem calibration_pass2_increments (below : Nat → Bool) (pwmTop : Int)
    (hb : ∀ i, below i = true) (ht : PWM_TOP_MIN ≤ pwmTop) :
    calibPass2 below pwmTop = (PWM_PULSE_MIN + 96, 96) ∧
      PWM_PULSE_MIN + 96 ≤ PWM_PULSE_MAX := by
  have ht196 : (196 : Int) ≤ pwmTop := by
    simp only [PWM_TOP_MIN] at ht; omega
  have h0 : setPWMOnTime pwmTop PWM_PULSE_MIN = PWM_PULSE_MIN := by
    simp only [setPWMOnTime, PWM_PULSE_MIN, PWM_PULSE_MAX, PWM_OFF_MIN]
    split_ifs <;> omega
  refine ⟨?_, by decide⟩
  unfold calibPass2
  rw [h0, calibPass2_loop below pwmTop hb ht196 768 le_rfl]
  norm_num

/-- Witness for C7 with constantly-true readings and `pwmTop = 1000`. -/
theorem calibration_pass2_increments_witness :
    calibPass2 (fun _ => true) 1000 = (PWM_PULSE_MIN + 96, 96) ∧
      PWM_PULSE_MIN + 96 ≤ PWM_PULSE_MAX :=
  calibration_pass2_increments (fun _ => true) 1000 (fun _ => rfl) (by decide)

/-! ### Renderer helper lemmas -/

/-- Unfolding an iteration from the far end: the `n+1`-st impression is
applied to the result of the first `n`. -/
theorem slotIter_succ_last (env : RenderEnv) (mode : DisplayMode) (target : Nat) :
    ∀ n s, slotIter env mode target (n + 1) s =
      (slotImpression env mode target (slotIter env mode target n s)).state := by
  intro n
  induction n with
  | zero => intro s; rfl
  | succ n ih =>
    intro s
    show slotIter env mode target (n + 1) (slotImpression env mode target s).state = _
    rw [ih]
    rfl

/-- Decrement of a byte value that is not at the wrap-around point. -/
theorem byteDec_eq (c : Nat) (h1 : 1 ≤ c) (h2 : c ≤ 256) : byteDec c = c - 1 := by
  unfold byteDec
  omega

/-- A slot heading to zero with scrollback enabled is effectively in
Scroll mode. -/
theorem effectiveMode_scroll (env : RenderEnv) (mode : DisplayMode) (c : Nat)
    (hsb : env.scrollback = true) (hc : c ≠ 0) :
    effectiveMode env mode 0 c = .scrollMode := by
  unfold effectiveMode
  rw [if_pos ⟨Ne.symm hc, rfl, hsb⟩]

/-- Splitting an iteration into two runs. -/
theorem slotIter_add (env : RenderEnv) (mode : DisplayMode) (target : Nat) :
    ∀ a b (s : SlotState), slotIter env mode target (a + b) s =
      slotIter env mode target b (slotIter env mode target a s) := by
  intro a
  induction a with
  | zero =>
    intro b s
    rw [Nat.zero_add]
    rfl
  | succ a ih =>
    intro b s
    have h1 : a + 1 + b = (a + b) + 1 := by omega
    rw [h1]
    show slotIter env mode target (a + b) (slotImpression env mode target s).state = _
    rw [ih]
    rfl

/-- Scroll step on an idle slot (`fadeState = 0`, several steps to go):
loads the countdown and immediately decrements it. -/
theorem scroll_step_start (env : RenderEnv) (mode : DisplayMode) (c : Nat)
    (hsb : env.scrollback = true) (hc : c ≠ 0) (hM : 2 ≤ env.scrollSteps) :
    (slotImpression env mode 0 ⟨c, 0⟩).state = ⟨c, env.scrollSteps - 1⟩ := by
  unfold slotImpression slotTransition
  rw [effectiveMode_scroll env mode c hsb hc]
  split_ifs <;> try first | rfl | omega | simp_all
  all_goals rw [if_neg (by omega : ¬env.scrollSteps = 1)]
  all_goals rw [if_pos (by omega : 1 < env.scrollSteps)]

/-- Scroll step in mid-countdown (`fadeState ≥ 2`). -/
theorem scroll_step_cont (env : RenderEnv) (mode : DisplayMode) (c f : Nat)
    (hsb : env.scrollback = true) (hc : c ≠ 0) (hf : 2 ≤ f) :
    (slotImpression env mode 0 ⟨c, f⟩).state = ⟨c, f - 1⟩ := by
  unfold slotImpression slotTransition
  rw [effectiveMode_scroll env mode c hsb hc]
  split_ifs <;> try first | rfl | omega | simp_all
  all_goals rw [if_neg (by omega : ¬f = 1)]
  all_goals rw [if_pos (by omega : 1 < f)]

/-- Scroll step at the end of the countdown (`fadeState = 1`):
decrements the displayed digit. -/
theorem scroll_step_fin (env : RenderEnv) (mode : DisplayMode) (c : Nat)
    (hsb : env.scrollback = true) (hc : c ≠ 0) :
    (slotImpression env mode 0 ⟨c, 1⟩).state = ⟨byteDec c, 0⟩ := by
  unfold slotImpression slotTransition
  rw [effectiveMode_scroll env mode c hsb hc]
  split_ifs <;> first | rfl | omega | simp_all

/-- Scroll step on an idle slot with `scrollSteps = 1`: the countdown
loads and finishes within the same impression. -/
theorem scroll_step_single (env : RenderEnv) (mode : DisplayMode) (c : Nat)
    (hsb : env.scrollback = true) (hc : c ≠ 0) (hM : env.scrollSteps = 1) :
    (slotImpression env mode 0 ⟨c, 0⟩).state = ⟨byteDec c, 0⟩ := by
  unfold slotImpression slotTransition
  rw [effectiveMode_scroll env mode c hsb hc]
  split_ifs <;> first | rfl | omega | simp_all

/-- Mid-countdown states of a scroll cycle: after `k < scrollSteps`
impressions the digit is unchanged and `fadeState = scrollSteps - k`. -/
theorem scroll_mid (env : RenderEnv) (mode : DisplayMode)
    (hsb : env.scrollback = true) (hM2 : 2 ≤ env.scrollSteps) (c : Nat) (hc1 : 1 ≤ c) :
    ∀ k, 1 ≤ k → k < env.scrollSteps →
      slotIter env mode 0 k ⟨c, 0⟩ = ⟨c, env.scrollSteps - k⟩ := by
  intro k
  induction k with
  | zero => intro h1 _; exact absurd h1 (by omega)
  | succ k ih =>
    intro _ hk
    rcases Nat.eq_zero_or_pos k with hk0 | hkpos
    · subst hk0
      show (slotImpression env mode 0 ⟨c, 0⟩).state = _
      rw [scroll_step_start env mode c hsb (by omega) hM2]
    · rw [slotIter_succ_last, ih hkpos (by omega),
        scroll_step_cont env mode c _ hsb (by omega) (by omega)]
      congr 1

/-- One full scroll period: from an idle slot showing `c ≥ 1`,
`scrollSteps` impressions decrement the digit by exactly one. -/
theorem scroll_period (env : RenderEnv) (mode : DisplayMode)
    (hsb : env.scrollback = true) (hM : 1 ≤ env.scrollSteps) (c : Nat)
    (hc1 : 1 ≤ c) (hc2 : c ≤ 255) :
    slotIter env mode 0 env.scrollSteps ⟨c, 0⟩ = ⟨c - 1, 0⟩ := by
  rcases Nat.lt_or_ge env.scrollSteps 2 with hM2 | hM2
  · have hM1 : env.scrollSteps = 1 := by omega
    rw [hM1]
    show (slotImpression env mode 0 ⟨c, 0⟩).state = _
    rw [scroll_step_single env mode c hsb (by omega) hM1, byteDec_eq c hc1 (by omega)]
  · have hlast : env.scrollSteps = (env.scrollSteps - 1) + 1 := by omega
    rw [hlast, slotIter_succ_last,
      scroll_mid env mode hsb hM2 c hc1 (env.scrollSteps - 1) (by omega) (by omega)]
    have h1 : env.scrollSteps - (env.scrollSteps - 1) = 1 := by omega
    rw [h1, scroll_step_fin env mode c hsb (by omega), byteDec_eq c hc1 (by omega)]

/-! ### Claims C5, C6, C10: renderer transition behaviour -/

/-- Claim C5: for every slot whose effective display mode is neither
Fade nor Scroll, a single impression snaps `currNumberArray[i]` to
`NumberArray[i]`. -/
theorem snap_modes_single_impression (env : RenderEnv) (mode : DisplayMode) (target : Nat)
    (s : SlotState)
    (hf : effectiveMode env mode target s.curr ≠ .fadeMode)
    (hs : effectiveMode env mode target s.curr ≠ .scrollMode) :
    (slotImpression env mode target s).state.curr = target := by
  unfold slotImpression slotTransition
  rw [if_neg hs, if_neg hf]

/-- Witness for C5: a Bright slot showing 3 with target 5 snaps to 5 in
one impression. -/
theorem snap_modes_single_impression_witness :
    effectiveMode ⟨false, true, true, 50, 4, 999⟩ .brightMode 5 (3 : Nat) ≠ .fadeMode ∧
    effectiveMode ⟨false, true, true, 50, 4, 999⟩ .brightMode 5 (3 : Nat) ≠ .scrollMode ∧
    (slotImpression ⟨false, true, true, 50, 4, 999⟩ .brightMode 5 ⟨3, 0⟩).state.curr = 5 :=
  ⟨by decide, by decide,
    snap_modes_single_impression ⟨false, true, true, 50, 4, 999⟩ .brightMode 5 ⟨3, 0⟩
      (by decide) (by decide)⟩

/-- Claim C6: (i) when the configured mode is not Scroll (no preset in
the source ever configures Scroll), the effective mode is Scroll exactly
when the target is 0, scrollback is enabled and the slot is not already
showing the target — the equivalence is stated for an arbitrary
`scrollback` value, so it also establishes necessity: with scrollback
disabled the Scroll transition is never triggered; (ii) with scrollback
enabled, while scrolling with `scrollSteps = M`, each impression
decrements the countdown `fadeState`; (iii) the displayed digit
decrements by exactly 1 every `M` impressions, reaching 0 after `c·M`
impressions from digit `c`. -/
theorem scroll_trigger_and_dynamics (env : RenderEnv) (mode : DisplayMode)
    (hM : 1 ≤ env.scrollSteps) :
    (∀ target curr : Nat, mode ≠ .scrollMode →
      (effectiveMode env mode target curr = .scrollMode ↔
        target = 0 ∧ env.scrollback = true ∧ curr ≠ target)) ∧
    (env.scrollback = true →
      (∀ k, 1 ≤ k → k < env.scrollSteps → ∀ c, 1 ≤ c → c ≤ 255 →
        slotIter env mode 0 k ⟨c, 0⟩ = ⟨c, env.scrollSteps - k⟩) ∧
      (∀ c, 1 ≤ c → c ≤ 255 →
        slotIter env mode 0 env.scrollSteps ⟨c, 0⟩ = ⟨c - 1, 0⟩) ∧
      (∀ c, c ≤ 255 → ∀ j, j ≤ c →
        slotIter env mode 0 (j * env.scrollSteps) ⟨c, 0⟩ = ⟨c - j, 0⟩)) := by
  refine ⟨?_, fun hsb => ⟨?_, ?_, ?_⟩⟩
  · intro target curr hm
    unfold effectiveMode preMode
    by_cases h : target ≠ curr ∧ target = 0 ∧ env.scrollback = true
    · rw [if_pos h]
      simp only [true_iff]
      exact ⟨h.2.1, h.2.2, Ne.symm h.1⟩
    · rw [if_neg h]
      constructor
      · intro hEq
        by_cases hb : env.blanked
        · rw [if_pos hb] at hEq
          exact absurd hEq (by decide)
        · rw [if_neg hb] at hEq
          exact absurd hEq hm
      · intro ⟨h0, hsb2, hne⟩
        exact absurd ⟨Ne.symm hne, h0, hsb2⟩ h
  · intro k hk1 hk2 c hc1 hc2
    exact scroll_mid env mode hsb (by omega) c hc1 k hk1 hk2
  · exact scroll_period env mode hsb hM
  · intro c hc255 j
    induction j with
    | zero =>
      intro _
      rw [Nat.zero_mul]
      rfl
    | succ j ih =>
      intro hj
      have hstep : (j + 1) * env.scrollSteps = j * env.scrollSteps + env.scrollSteps := by ring
      rw [hstep, slotIter_add, ih (by omega),
        scroll_period env mode hsb hM (c - j) (by omega) (by omega)]
      congr 1

/-- Witness for C6 at `scrollSteps = 4`, digit 3 scrolling to 0,
instantiated both with scrollback enabled (trigger and dynamics) and
with scrollback disabled (no trigger). -/
theorem scroll_trigger_and_dynamics_witness :
    (effectiveMode ⟨false, true, true, 50, 4, 999⟩ .normalMode 0 3 = .scrollMode ↔
      (0 : Nat) = 0 ∧ true = true ∧ (3 : Nat) ≠ 0) ∧
    (effectiveMode ⟨false, true, false, 50, 4, 999⟩ .normalMode 0 3 = .scrollMode ↔
      (0 : Nat) = 0 ∧ false = true ∧ (3 : Nat) ≠ 0) ∧
    slotIter ⟨false, true, true, 50, 4, 999⟩ .normalMode 0 4 ⟨3, 0⟩ = ⟨2, 0⟩ ∧
    slotIter ⟨false, true, true, 50, 4, 999⟩ .normalMode 0 12 ⟨3, 0⟩ = ⟨0, 0⟩ := by
  have h := scroll_trigger_and_dynamics ⟨false, true, true, 50, 4, 999⟩ .normalMode
    (by decide)
  have hoff := scroll_trigger_and_dynamics ⟨false, true, false, 50, 4, 999⟩ .normalMode
    (by decide)
  have hd := h.2 rfl
  refine ⟨h.1 0 3 (by decide), hoff.1 0 3 (by decide),
    hd.2.1 3 (by decide) (by decide), ?_⟩
  have h12 := hd.2.2 3 (by decide) 3 (by decide)
  simpa using h12

/-- Claim C10: a Fade-mode slot already showing its target with an idle
fade writes nothing to `digitSwitchTime`, so the inner timer loop uses
whatever value is carried in from before this slot's iteration
(including the uninitialized `none` for the first such slot). -/
theorem fade_idle_no_switch_write (env : RenderEnv) (mode : DisplayMode) (target : Nat)
    (s : SlotState) (hbl : env.blanked = false) (hm : mode = .fadeMode)
    (hc : s.curr = target) (hf : s.fadeState = 0) :
    (slotImpression env mode target s).switchWrites = [] ∧
      ∀ prev : Option Nat, usedSwitchTime prev (slotImpression env mode target s) = prev := by
  have hEff : effectiveMode env mode target s.curr = .fadeMode := by
    unfold effectiveMode preMode
    rw [if_neg (by simp [hc]), if_neg (by simp [hbl])]
    exact hm
  have hw : (slotImpression env mode target s).switchWrites = [] := by
    unfold slotImpression slotTransition
    rw [hEff]
    split_ifs <;> first | rfl | omega | simp_all
  refine ⟨hw, ?_⟩
  intro prev
  unfold usedSwitchTime
  rw [hw]
  rfl

/-- Witness for C10: an idle Fade slot showing 7 leaves both a previous
value and the uninitialized marker untouched. -/
theorem fade_idle_no_switch_write_witness :
    (slotImpression ⟨false, true, true, 50, 4, 999⟩ .fadeMode 7 ⟨7, 0⟩).switchWrites = [] ∧
      ∀ prev : Option Nat,
        usedSwitchTime prev (slotImpression ⟨false, true, true, 50, 4, 999⟩ .fadeMode 7 ⟨7, 0⟩) =
          prev :=
  fade_idle_no_switch_write ⟨false, true, true, 50, 4, 999⟩ .fadeMode 7 ⟨7, 0⟩ rfl rfl rfl rfl

/-! ### Fade dynamics helper lemmas -/

/-- Fade step on an idle mismatched slot (`fadeState = 0`, at least two
fade steps configured): loads the countdown and immediately decrements
it. -/
theorem fade_step_start (env : RenderEnv) (mode : DisplayMode) (target c : Nat)
    (hEff : effectiveMode env mode target c = .fadeMode)
    (hne : target ≠ c) (hN : 2 ≤ env.fadeSteps) :
    (slotImpression env mode target ⟨c, 0⟩).state = ⟨c, env.fadeSteps - 1⟩ := by
  unfold slotImpression slotTransition
  rw [hEff]
  split_ifs <;> try first | rfl | omega | simp_all
  all_goals rw [if_neg (by omega : ¬env.fadeSteps = 1)]
  all_goals rw [if_pos (by omega : 1 < env.fadeSteps)]

/-- Fade step in mid-countdown (`fadeState ≥ 2`). -/
theorem fade_step_cont (env : RenderEnv) (mode : DisplayMode) (target c f : Nat)
    (hEff : effectiveMode env mode target c = .fadeMode) (hf : 2 ≤ f) :
    (slotImpression env mode target ⟨c, f⟩).state = ⟨c, f - 1⟩ := by
  unfold slotImpression slotTransition
  rw [hEff]
  split_ifs <;> try first | rfl | omega | simp_all
  all_goals rw [if_neg (by omega : ¬f = 1)]
  all_goals rw [if_pos (by omega : 1 < f)]

/-- Fade step at the end of the countdown (`fadeState = 1`): snaps the
digit to the target. -/
theorem fade_step_fin (env : RenderEnv) (mode : DisplayMode) (target c : Nat)
    (hEff : effectiveMode env mode target c = .fadeMode) :
    (slotImpression env mode target ⟨c, 1⟩).state = ⟨target, 0⟩ := by
  unfold slotImpression slotTransition
  rw [hEff]
  split_ifs <;> first | rfl | omega | simp_all

/-- Fade step on an idle mismatched slot with `fadeSteps = 1`: the fade
loads and finishes within the same impression. -/
theorem fade_step_single (env : RenderEnv) (mode : DisplayMode) (target c : Nat)
    (hEff : effectiveMode env mode target c = .fadeMode)
    (hne : target ≠ c) (hN1 : env.fadeSteps = 1) :
    (slotImpression env mode target ⟨c, 0⟩).state = ⟨target, 0⟩ := by
  unfold slotImpression slotTransition
  rw [hEff]
  split_ifs <;> first | rfl | omega | simp_all

/-- Mid-countdown states of a fade: after `k < fadeSteps` impressions
the digit is unchanged and `fadeState = fadeSteps - k`. -/
theorem fade_mid (env : RenderEnv) (mode : DisplayMode) (target c : Nat)
    (hEff : effectiveMode env mode target c = .fadeMode)
    (hne : target ≠ c) (hN2 : 2 ≤ env.fadeSteps) :
    ∀ k, 1 ≤ k → k < env.fadeSteps →
      slotIter env mode target k ⟨c, 0⟩ = ⟨c, env.fadeSteps - k⟩ := by
  intro k
  induction k with
  | zero => intro h1 _; exact absurd h1 (by omega)
  | succ k ih =>
    intro _ hk
    rcases Nat.eq_zero_or_pos k with hk0 | hkpos
    · subst hk0
      show (slotImpression env mode target ⟨c, 0⟩).state = _
      rw [fade_step_start env mode target c hEff hne hN2]
    · rw [slotIter_succ_last, ih hkpos (by omega),
        fade_step_cont env mode target c _ hEff (by omega)]
      congr 1

/-- A fade from a mismatched idle slot converges in exactly `fadeSteps`
impressions. -/
theorem fade_exact (env : RenderEnv) (mode : DisplayMode) (target c : Nat)
    (hEff : effectiveMode env mode target c = .fadeMode)
    (hne : target ≠ c) (hN : 1 ≤ env.fadeSteps) :
    slotIter env mode target env.fadeSteps ⟨c, 0⟩ = ⟨target, 0⟩ := by
  rcases Nat.lt_or_ge env.fadeSteps 2 with hN2 | hN2
  · have hN1 : env.fadeSteps = 1 := by omega
    rw [hN1]
    show (slotImpression env mode target ⟨c, 0⟩).state = _
    rw [fade_step_single env mode target c hEff hne hN1]
  · have hlast : env.fadeSteps = (env.fadeSteps - 1) + 1 := by omega
    rw [hlast, slotIter_succ_last,
      fade_mid env mode target c hEff hne hN2 (env.fadeSteps - 1) (by omega) (by omega)]
    have h1 : env.fadeSteps - (env.fadeSteps - 1) = 1 := by omega
    rw [h1, fade_step_fin env mode target c hEff]

/-! ### Claim C1: the fade end-to-end scenario and exact-N convergence -/

/-- Render parameters of the C1 scenario: `offCount = 1000`,
`fadeSteps = 50`. -/
def fadeScenarioEnv : RenderEnv := ⟨false, true, true, 50, 4, 1000⟩

/-- Claim C1: in the scenario `offCount = 1000`, `fadeSteps = 50`,
`currentValue = 3`, `targetValue = 7`, `fadeState = 0`, the values the
50 impressions assign to `fadeState` are `50,49,...,1` followed by the
final `0`, the values assigned to `digitSwitchTime` are
`1000,980,...,20` (the products `fadeState × fadeStep` with
`fadeStep = 1000/50 = 20`) followed by the full-range snap value
`DIGIT_DISPLAY_COUNT`, the countdown sequence is strictly decreasing (pairwise),
and after the 50th impression `currentValue = 7` and `fadeState = 0`;
in general a fade with `fadeSteps = N ≥ 1` from a mismatched idle slot
reaches the target in exactly `N` impressions (the digit is still the
old one at every `k < N`). -/
theorem fade_scenario_and_exact_steps :
    ((slotTrace fadeScenarioEnv .fadeMode 7 50 ⟨3, 0⟩).1 =
        ((List.range 50).map (fun k => 50 - k)) ++ [0] ∧
      (slotTrace fadeScenarioEnv .fadeMode 7 50 ⟨3, 0⟩).2 =
        ((List.range 50).map (fun k => (50 - k) * 20)) ++ [DIGIT_DISPLAY_COUNT] ∧
      List.Pairwise (fun a b => b < a) ((List.range 50).map (fun k => (50 - k) * 20)) ∧
      slotIter fadeScenarioEnv .fadeMode 7 50 ⟨3, 0⟩ = ⟨7, 0⟩ ∧
      fadeStepOf 1000 50 = 20) ∧
    (∀ (env : RenderEnv) (mode : DisplayMode) (target : Nat) (s : SlotState),
      1 ≤ env.fadeSteps →
      effectiveMode env mode target s.curr = .fadeMode →
      target ≠ s.curr → s.fadeState = 0 →
      slotIter env mode target env.fadeSteps s = ⟨target, 0⟩ ∧
      ∀ k, 1 ≤ k → k < env.fadeSteps →
        slotIter env mode target k s = ⟨s.curr, env.fadeSteps - k⟩) := by
  constructor
  · refine ⟨by decide, by decide, by decide, by decide, by decide⟩
  · intro env mode target s hN hEff hne hf
    obtain ⟨c, f⟩ := s
    simp only at hEff hne hf
    subst hf
    refine ⟨fade_exact env mode target c hEff hne hN, ?_⟩
    intro k hk1 hk2
    exact fade_mid env mode target c hEff hne (by omega) k hk1 hk2

/-- Witness for C1: a fade with `fadeSteps = 5` from digit 3 to digit 7
converges in exactly 5 impressions. -/
theorem fade_scenario_and_exact_steps_witness :
    slotIter ⟨false, true, true, 5, 4, 999⟩ .fadeMode 7 5 ⟨3, 0⟩ = ⟨7, 0⟩ :=
  (fade_scenario_and_exact_steps.2 ⟨false, true, true, 5, 4, 999⟩ .fadeMode 7 ⟨3, 0⟩
    (by decide) (by decide) (by decide) (by decide)).1

/-! ### Claim C9: blink toggle cadence -/

/-- Splitting a blink iteration into two runs. -/
theorem blinkIter_add : ∀ a b st, blinkIter (a + b) st = blinkIter b (blinkIter a st) := by
  intro a
  induction a with
  | zero =>
    intro b st
    rw [Nat.zero_add]
    rfl
  | succ a ih =>
    intro b st
    have h1 : a + 1 + b = (a + b) + 1 := by omega
    rw [h1]
    show blinkIter (a + b) (blinkStep st) = _
    rw [ih]
    rfl

/-- Counting below the threshold: while `blinkCounter + k` stays below
`BLINK_COUNT_MAX`, `k` calls only advance the counter. -/
theorem blinkIter_count (b : Bool) :
    ∀ k c, c + k < BLINK_COUNT_MAX → blinkIter k (c, b) = (c + k, b) := by
  intro k
  induction k with
  | zero => intro c _; rfl
  | succ k ih =>
    intro c hck
    show blinkIter k (blinkStep (c, b)) = _
    have hc : ¬(c + 1 = BLINK_COUNT_MAX) := by
      unfold BLINK_COUNT_MAX at *
      omega
    unfold blinkStep
    simp only [if_neg hc]
    rw [ih (c + 1) (by unfold BLINK_COUNT_MAX at *; omega)]
    congr 1
    omega

/-- Counterexample for claim C9 as stated: starting from a fresh
counter, after `⌈25/6⌉ = 5` calls to `outputDisplay` the shared
`blinkState` has not inverted; it inverts only at the 25th call. -/
theorem blink_toggle_counterexample :
    blinkIter 5 (0, true) = (5, true) ∧ blinkIter 25 (0, true) = (0, false) := by
  constructor <;> decide

/-- Claim C9 amended: `blinkState` inverts exactly once after exactly
`BLINK_COUNT_MAX = 25` calls to `outputDisplay` (25 complete
impressions of all six slots, i.e. 150 per-slot renders), driven by the
single shared counter: for every `k < 25` the flag is unchanged after
`k` calls, and after the 25th call it is inverted and the counter is
reset. -/
theorem blink_toggle_amended (b : Bool) :
    (∀ k, k < BLINK_COUNT_MAX → blinkIter k (0, b) = (k, b)) ∧
    blinkIter BLINK_COUNT_MAX (0, b) = (0, !b) := by
  constructor
  · intro k hk
    have h := blinkIter_count b k 0 (by omega)
    rwa [Nat.zero_add] at h
  · have h24 : BLINK_COUNT_MAX = 24 + 1 := by decide
    rw [h24, blinkIter_add, blinkIter_count b 24 0 (by decide)]
    rfl

/-- Witness for the amended C9 at `b = true`, `k = 5`. -/
theorem blink_toggle_amended_witness :
    blinkIter 5 (0, true) = (5, true) ∧ blinkIter BLINK_COUNT_MAX (0, true) = (0, false) :=
  ⟨(blink_toggle_amended true).1 5 (by decide), (blink_toggle_amended true).2⟩

/-! ### Claim C8: per-impression timing order -/

/-- Positivity of every value a slot iteration assigns to
`digitSwitchTime`, given at least one fade step and a fade quotient of
at least 1 (`fadeSteps ≤ digitOffCount`). -/
theorem switchWrites_pos (env : RenderEnv) (mode : DisplayMode) (target : Nat) (s : SlotState)
    (h1 : 1 ≤ env.fadeSteps) (h2 : env.fadeSteps ≤ env.digitOffCount) :
    ∀ w ∈ (slotImpression env mode target s).switchWrites, 1 ≤ w := by
  have hstep : 1 ≤ fadeStepOf env.digitOffCount env.fadeSteps := by
    unfold fadeStepOf
    exact (Nat.one_le_div_iff (by omega)).mpr h2
  have hmul2 : ∀ m, 1 ≤ m → 1 ≤ m * fadeStepOf env.digitOffCount env.fadeSteps := by
    intro m hm
    exact Nat.one_le_iff_ne_zero.mpr (Nat.mul_ne_zero (by omega) (by omega))
  intro w hw
  unfold slotImpression slotTransition at hw
  simp only [] at hw
  split_ifs at hw
  all_goals
    simp only [List.mem_append, List.mem_singleton, List.mem_cons, List.not_mem_nil,
      List.nil_append, List.cons_append, or_false, false_or] at hw
  all_goals try rcases hw with rfl | rfl
  all_goals
    first
    | decide
    | exact hmul2 _ (by omega)

/-- Counterexample for claim C8 as stated: a Bright slot already showing
its target has finite `onStep = 0` and finite `offStep = 999`, yet the
impression sets `digitSwitchTime` to `DIGIT_DISPLAY_COUNT = 1000`, so
`switchStep ≤ offStep` fails — the decoder switch fires after the
digit-off event, inside the anti-ghost margin. -/
theorem timing_order_counterexample :
    (slotImpression ⟨false, true, false, 50, 4, 999⟩ .brightMode 5 ⟨5, 0⟩).onTime =
        DIGIT_DISPLAY_ON ∧
      (slotImpression ⟨false, true, false, 50, 4, 999⟩ .brightMode 5 ⟨5, 0⟩).offTime = 999 ∧
      (slotImpression ⟨false, true, false, 50, 4, 999⟩ .brightMode 5 ⟨5, 0⟩).switchWrites =
        [DIGIT_DISPLAY_COUNT] ∧
      ¬((DIGIT_DISPLAY_COUNT : Int) ≤
        (slotImpression ⟨false, true, false, 50, 4, 999⟩ .brightMode 5 ⟨5, 0⟩).offTime) := by
  refine ⟨by decide, by decide, by decide, by decide⟩

/-- Claim C8 amended: `onStep` is the `DIGIT_DISPLAY_NEVER` sentinel
exactly for globally-blanked, Blanked-mode, or Blink-mode-while-off
slots; for every other slot `onStep = 0` is strictly below every value
the impression assigns to `switchStep` (provided the configuration
satisfies `1 ≤ fadeSteps ≤ digitOffCount`, so that the fade quotient is
non-zero).  The relation `switchStep ≤ offStep` of the original claim
does not hold in general (see the counterexample). -/
theorem timing_order_amended (env : RenderEnv) (mode : DisplayMode) (target : Nat)
    (s : SlotState) (h1 : 1 ≤ env.fadeSteps) (h2 : env.fadeSteps ≤ env.digitOffCount) :
    ((slotImpression env mode target s).onTime = DIGIT_DISPLAY_NEVER ↔
      (env.blanked = true ∨ mode = .blankedMode ∨
        (mode = .blinkMode ∧ env.blinkState = false))) ∧
    ((slotImpression env mode target s).onTime ≠ DIGIT_DISPLAY_NEVER →
      ∀ w ∈ (slotImpression env mode target s).switchWrites,
        (slotImpression env mode target s).onTime < (w : Int)) := by
  have honval : (slotImpression env mode target s).onTime = DIGIT_DISPLAY_NEVER ∨
      (slotImpression env mode target s).onTime = DIGIT_DISPLAY_ON := by
    unfold slotImpression onOffTimes preMode
    cases henv : env.blanked <;> cases mode <;> cases hbs : env.blinkState <;> simp
  constructor
  · unfold slotImpression onOffTimes preMode
    cases henv : env.blanked <;> cases mode <;> cases hbs : env.blinkState <;>
      simp [DIGIT_DISPLAY_NEVER, DIGIT_DISPLAY_ON, DIM_VALUE, DIGIT_DISPLAY_OFF]
  · intro hne w hw
    have hon : (slotImpression env mode target s).onTime = DIGIT_DISPLAY_ON := by
      rcases honval with h | h
      · exact absurd h hne
      · exact h
    rw [hon]
    have hpos : 0 < w := switchWrites_pos env mode target s h1 h2 w hw
    unfold DIGIT_DISPLAY_ON
    exact_mod_cast hpos

/-- Witness for the amended C8: a lit Normal slot mid-render with
`fadeSteps = 50 ≤ digitOffCount = 999`. -/
theorem timing_order_amended_witness :
    ((slotImpression ⟨false, true, true, 50, 4, 999⟩ .normalMode 5 ⟨3, 0⟩).onTime =
        DIGIT_DISPLAY_NEVER ↔
      (false = true ∨ DisplayMode.normalMode = .blankedMode ∨
        (DisplayMode.normalMode = .blinkMode ∧ true = false))) ∧
    ((slotImpression ⟨false, true, true, 50, 4, 999⟩ .normalMode 5 ⟨3, 0⟩).onTime ≠
        DIGIT_DISPLAY_NEVER →
      ∀ w ∈ (slotImpression ⟨false, true, true, 50, 4, 999⟩ .normalMode 5 ⟨3, 0⟩).switchWrites,
        (slotImpression ⟨false, true, true, 50, 4, 999⟩ .normalMode 5 ⟨3, 0⟩).onTime <
          (w : Int)) :=
  timing_order_amended ⟨false, true, true, 50, 4, 999⟩ .normalMode 5 ⟨3, 0⟩
    (by decide) (by decide)

end Ardunix
